import Mathlib

/-!
Verification of achapkowski/dask-tutorial-pycon-2018 against its
natural-language specification.

The repository is a set of tutorial notebooks.  The only function the
source itself defines is the recursive `fib` of
`src/07-machine-learning.ipynb`; everything else is a sequence of calls
into external libraries (scikit-learn, dask, joblib, concurrent.futures).
This file embeds:

* the Python function `fib` (on arbitrary Python integers, i.e. `ℤ`);
* a fuel-indexed interpreter `fibFuel` of the same recursion, used to
  reason about the termination of the Python call stack;
* the notebook cell sequences as data (cell types and the statements of
  every code cell), over which the structural claims of the spec are
  settled;
* an execution model of independent pure tasks run by a pool/scheduler
  in an arbitrary order, used for the backend-equivalence claims.
-/

namespace DaskTutorial

/-! ### The `fib` function of 07-machine-learning.ipynb

Python source (notebook part 1, cell 1):

    def fib(n):
        """Compute the `n`th fibonnaci number.

        This is a deliberatly slow, CPU intensive implemenation.
        """
        if n < 2:
            return n
        return fib(n - 2) + fib(n - 1)

Python integers are unbounded, so `n : ℤ`. -/

def fib (n : ℤ) : ℤ :=
  if _h : n < 2 then n
  else fib (n - 2) + fib (n - 1)
termination_by n.toNat
decreasing_by
  · omega
  · omega

/-- A fuel-indexed interpreter of the same recursion: each unit of fuel is
one frame of Python call-stack depth; `none` means the stack bound was
exhausted before the call returned. -/
def fibFuel : ℕ → ℤ → Option ℤ
  | 0, _ => none
  | f + 1, n =>
    if n < 2 then some n
    else
      match fibFuel f (n - 2), fibFuel f (n - 1) with
      | some a, some b => some (a + b)
      | _, _ => none

lemma fib_of_lt (n : ℤ) (h : n < 2) : fib n = n := by
  rw [fib]; simp [h]

lemma fib_of_ge (n : ℤ) (h : ¬ n < 2) : fib n = fib (n - 2) + fib (n - 1) := by
  rw [fib]; simp [h]

/-- With fuel exceeding `n.toNat`, the interpreter returns and agrees with
the recursive definition. -/
lemma fibFuel_complete : ∀ (f : ℕ) (n : ℤ), n.toNat < f → fibFuel f n = some (fib n) := by
  intro f
  induction f with
  | zero => intro n h; omega
  | succ f ih =>
    intro n h
    by_cases h2 : n < 2
    · rw [fibFuel, if_pos h2, fib_of_lt n h2]
    · have hn : 2 ≤ n := by omega
      have ha : (n - 2).toNat < f := by omega
      have hb : (n - 1).toNat < f := by omega
      rw [fibFuel, if_neg h2, ih _ ha, ih _ hb, fib_of_ge n h2]

/-- On natural-number inputs, `fib` agrees with the mathematical Fibonacci
sequence. -/
lemma fib_eq_natFib : ∀ n : ℕ, fib (n : ℤ) = (Nat.fib n : ℤ) := by
  intro n
  induction n using Nat.strong_induction_on with
  | _ n ih =>
    match n with
    | 0 =>
      have hc : ((0 : ℕ) : ℤ) = 0 := by norm_num
      rw [hc, fib_of_lt 0 (by norm_num)]; simp
    | 1 =>
      have hc : ((1 : ℕ) : ℤ) = 1 := by norm_num
      rw [hc, fib_of_lt 1 (by norm_num)]; simp
    | (m + 2) =>
      have hc : ((m + 2 : ℕ) : ℤ) = (m : ℤ) + 2 := by push_cast; ring
      rw [hc, fib_of_ge ((m : ℤ) + 2) (by omega)]
      have e1 : ((m : ℤ) + 2) - 2 = ((m : ℕ) : ℤ) := by ring
      have e2 : ((m : ℤ) + 2) - 1 = ((m + 1 : ℕ) : ℤ) := by push_cast; ring
      rw [e1, e2, ih m (by omega), ih (m + 1) (by omega), Nat.fib_add_two]
      push_cast
      ring

/-- C2: For every natural number n, the notebook's fib returns the nth
Fibonacci number: fib 0 = 0, fib 1 = 1, for every n ≥ 2 it satisfies the
Fibonacci recurrence, and on every natural number it agrees with the
reference Fibonacci function. -/
theorem C2_fib_is_fibonacci :
    fib 0 = 0 ∧ fib 1 = 1 ∧
    (∀ n : ℤ, 2 ≤ n → fib n = fib (n - 2) + fib (n - 1)) ∧
    (∀ n : ℕ, fib (n : ℤ) = (Nat.fib n : ℤ)) := by
  refine ⟨fib_of_lt 0 (by norm_num), fib_of_lt 1 (by norm_num), ?_, fib_eq_natFib⟩
  intro n hn
  exact fib_of_ge n (by omega)

/-- Witness for C2 at n = 7. -/
theorem C2_fib_is_fibonacci_witness :
    fib 7 = fib 5 + fib 6 :=
  C2_fib_is_fibonacci.2.2.1 7 (by norm_num)

/-- C9: fib terminates on every integer input: a call stack of depth
n.toNat + 1 always suffices, so the recursion is well-founded and fib is a
total function (its Lean embedding is accepted by well-founded recursion
on n.toNat). -/
theorem C9_fib_terminates :
    ∀ n : ℤ, fibFuel (n.toNat + 1) n = some (fib n) := by
  intro n
  exact fibFuel_complete (n.toNat + 1) n (by omega)

/-- C10: for every integer n < 2, including every negative integer, fib
returns n itself, immediately (one stack frame of fuel suffices) and with
no error branch. -/
theorem C10_fib_below_two_returns_input :
    ∀ n : ℤ, n < 2 → fib n = n ∧ fibFuel 1 n = some n := by
  intro n h
  refine ⟨fib_of_lt n h, ?_⟩
  rw [fibFuel, if_pos h]

/-- Witness for C10 at n = -7: fib (-7) = -7, not an error and not a
Fibonacci value. -/
theorem C10_fib_below_two_returns_input_witness :
    fib (-7) = -7 ∧ fibFuel 1 (-7) = some (-7) :=
  C10_fib_below_two_returns_input (-7) (by norm_num)

/-! ### Pools and schedulers as execution orders over independent tasks

`thread_pool.map(fib, xs)`, `ProcessPoolExecutor.map`, and the dask
schedulers (`largest_delay.compute()` under threads, processes, a single
thread, or a distributed client) all run a fixed set of independent pure
tasks, one per input element / dataframe partition, in whatever order the
backend happens to schedule them, writing each task's result into the slot
of its own index; the results are then gathered in index order.  A backend
is modelled by the order (a list of task indices) in which it completes
the tasks; a run is complete when every index was scheduled. -/

/-- Run the tasks `g xs[i]` in the given completion order, each writing its
result into slot `i` of an index-ordered result buffer. -/
def execTasks (g : α → β) (xs : List α) (order : List ℕ) : List (Option β) :=
  order.foldl
    (fun st i =>
      match xs[i]? with
      | some a => st.set i (some (g a))
      | none => st)
    (List.replicate xs.length none)

/-- Gather the result buffer in index order; `none` if some task never ran. -/
def gather : List (Option β) → Option (List β)
  | [] => some []
  | none :: _ => none
  | some b :: rest => (gather rest).map (b :: ·)

/-- A backend's completion order is complete for `n` tasks when every task
index below `n` was scheduled at some point. -/
def completeOrder (order : List ℕ) (n : ℕ) : Prop :=
  ∀ i ∈ List.range n, i ∈ order

/-- `Executor.map(f, xs)`: run one task per element under the backend's
completion order, then yield the results in input order. -/
def poolMap (g : α → β) (xs : List α) (order : List ℕ) : Option (List β) :=
  gather (execTasks g xs order)

lemma execTasks_go_length (g : α → β) (xs : List α) :
    ∀ (order : List ℕ) (st : List (Option β)),
      (order.foldl
        (fun st i =>
          match xs[i]? with
          | some a => st.set i (some (g a))
          | none => st) st).length = st.length := by
  intro order
  induction order with
  | nil => intro st; rfl
  | cons i rest ih =>
    intro st
    rw [List.foldl_cons, ih]
    cases h : xs[i]? with
    | none => rfl
    | some a => simp

lemma execTasks_go_getElem (g : α → β) (xs : List α) :
    ∀ (order : List ℕ) (st : List (Option β)), st.length = xs.length →
      ∀ j, j < xs.length →
        (order.foldl
          (fun st i =>
            match xs[i]? with
            | some a => st.set i (some (g a))
            | none => st) st)[j]? =
        (if j ∈ order then some (xs[j]?.map g) else st[j]?) := by
  intro order
  induction order with
  | nil => intro st _ j _; simp
  | cons i rest ih =>
    intro st hlen j hj
    rw [List.foldl_cons]
    have hstep :
        (match xs[i]? with
          | some a => st.set i (some (g a))
          | none => st).length = xs.length := by
      cases h : xs[i]? with
      | none => simpa using hlen
      | some a => simpa using hlen
    rw [ih _ hstep j hj]
    by_cases hr : j ∈ rest
    · simp [hr, List.mem_cons]
    · by_cases hji : j = i
      · subst hji
        have hx : ∃ a, xs[j]? = some a := by
          exact ⟨xs[j], (List.getElem?_eq_some_getElem_iff xs j hj).mpr trivial⟩
        obtain ⟨a, ha⟩ := hx
        simp only [ha, hr, if_false, List.mem_cons, true_or, if_true]
        rw [List.getElem?_set_self]
        · simp [ha]
        · omega
      · have hs :
            (match xs[i]? with
              | some a => st.set i (some (g a))
              | none => st)[j]? = st[j]? := by
          cases h : xs[i]? with
          | none => rfl
          | some a =>
            rw [List.getElem?_set_ne]
            omega
        rw [hs]
        simp [hr, hji, List.mem_cons]

/-- Under any complete completion order the result buffer is exactly the
results of the reference sequential `map`, slot by slot. -/
lemma execTasks_complete (g : α → β) (xs : List α) (order : List ℕ)
    (h : completeOrder order xs.length) :
    execTasks g xs order = (xs.map g).map some := by
  apply List.ext_getElem?
  intro j
  by_cases hj : j < xs.length
  · rw [execTasks, execTasks_go_getElem g xs order _ (by simp) j hj,
      if_pos (h j (List.mem_range.mpr hj))]
    have hx : xs[j]? = some xs[j] := (List.getElem?_eq_some_getElem_iff xs j hj).mpr trivial
    simp [hx]
  · have h1 : (execTasks g xs order).length = xs.length := by
      rw [execTasks, execTasks_go_length g xs order (List.replicate xs.length none)]
      simp
    rw [List.getElem?_eq_none (by omega), List.getElem?_eq_none (by simpa using (by omega : xs.length ≤ j))]

lemma gather_map_some (l : List β) : gather (l.map some) = some l := by
  induction l with
  | nil => rfl
  | cons b rest ih => rw [List.map_cons, gather, ih]; rfl

/-- Backend independence for `Executor.map`: any complete completion order
yields exactly the sequential `map` results, in input order. -/
lemma poolMap_eq_map (g : α → β) (xs : List α) (order : List ℕ)
    (h : completeOrder order xs.length) :
    poolMap g xs order = some (xs.map g) := by
  rw [poolMap, execTasks_complete g xs order h, gather_map_some]

/-- C4: for every list xs of integers, `list(thread_pool.map(fib, xs))`
equals `list(map(fib, xs))` in values and order, whatever order the thread
pool finishes the tasks in, and a process pool (any other complete
completion order) returns the same unchanged results. -/
theorem C4_pool_map_backend_equivalence :
    ∀ (xs : List ℤ) (threadOrder processOrder : List ℕ),
      completeOrder threadOrder xs.length →
      completeOrder processOrder xs.length →
      poolMap fib xs threadOrder = some (xs.map fib) ∧
      poolMap fib xs processOrder = some (xs.map fib) := by
  intro xs t p ht hp
  exact ⟨poolMap_eq_map fib xs t ht, poolMap_eq_map fib xs p hp⟩

/-- Witness for C4: two tasks finished in the orders [1, 0] (threads) and
[0, 1] (processes) give the same `map fib` results. -/
theorem C4_pool_map_backend_equivalence_witness :
    poolMap fib [5, 6] [1, 0] = some ([5, 6].map fib) ∧
    poolMap fib [5, 6] [0, 1] = some ([5, 6].map fib) :=
  C4_pool_map_backend_equivalence [5, 6] [1, 0] [0, 1]
    (by unfold completeOrder; decide) (by unfold completeOrder; decide)

/-! ### The `largest_delay` task graph

Notebook part 1, cell 16:

    df = dd.read_csv(os.path.join("data", "nycflights", "*.csv"), ...)
    # Maximum non-cancelled delay
    largest_delay = df[~df.Cancelled].DepDelay.max()

`dd.read_csv` over a glob of CSV files makes one partition per file; the
task graph of `largest_delay` runs, per partition, the filter
`~Cancelled` followed by the chunk-wise `DepDelay` maximum, and then a
single aggregation task takes the maximum of the per-partition maxima.
The delay values live in an arbitrary linear order `α` (comparison is the
only operation performed on them).  A scheduler backend is, as above, the
order in which it completes the independent per-partition tasks. -/

/-- One row of one `nycflights` CSV partition, restricted to the columns
the `largest_delay` graph reads. -/
structure FlightRow (α : Type) where
  cancelled : Bool
  depDelay : α

/-- Per-partition task: `~Cancelled` filter then chunk-wise `DepDelay`
maximum (`none` when the partition has no non-cancelled row). -/
def chunkLargestDelay [LinearOrder α] (rows : List (FlightRow α)) : Option α :=
  ((rows.filter fun r => !r.cancelled).map FlightRow.depDelay).max?

/-- Aggregation task: maximum of the per-partition maxima. -/
def aggLargestDelay [LinearOrder α] (ms : List (Option α)) : Option α :=
  ms.reduceOption.max?

/-- `largest_delay.compute` under a scheduler backend: the per-partition
tasks run in the backend's completion order, then the aggregation task
combines them; `none` at the outer layer means the scheduler never ran
some task. -/
def largestDelayCompute [LinearOrder α] (parts : List (List (FlightRow α)))
    (order : List ℕ) : Option (Option α) :=
  (gather (execTasks chunkLargestDelay parts order)).map aggLargestDelay

/-- Reference single-threaded evaluation (`get=dask.get`): partitions
processed in index order. -/
def largestDelaySeq [LinearOrder α] (parts : List (List (FlightRow α))) : Option α :=
  aggLargestDelay (parts.map chunkLargestDelay)

/-- C3: the value of `largest_delay.compute()` is independent of the
execution backend: for any four complete completion orders (the default
threaded scheduler, `get=dask.multiprocessing.get`, the single-threaded
`get=dask.get`, and the distributed `get=client.get`), all four computes
return the same value, namely the reference sequential evaluation. -/
theorem C3_largest_delay_backend_independent :
    ∀ (α : Type) (_ : LinearOrder α) (parts : List (List (FlightRow α)))
      (threadedOrder multiprocOrder singleOrder distributedOrder : List ℕ),
      completeOrder threadedOrder parts.length →
      completeOrder multiprocOrder parts.length →
      completeOrder singleOrder parts.length →
      completeOrder distributedOrder parts.length →
      largestDelayCompute parts threadedOrder = some (largestDelaySeq parts) ∧
      largestDelayCompute parts multiprocOrder = some (largestDelaySeq parts) ∧
      largestDelayCompute parts singleOrder = some (largestDelaySeq parts) ∧
      largestDelayCompute parts distributedOrder = some (largestDelaySeq parts) := by
  intro α _ parts o1 o2 o3 o4 h1 h2 h3 h4
  have key : ∀ o : List ℕ, completeOrder o parts.length →
      largestDelayCompute parts o = some (largestDelaySeq parts) := by
    intro o ho
    rw [largestDelayCompute, execTasks_complete chunkLargestDelay parts o ho,
      gather_map_some]
    rfl
  exact ⟨key o1 h1, key o2 h2, key o3 h3, key o4 h4⟩

/-- Witness for C3: a two-partition dataset with integer delays, computed
under four concrete completion orders. -/
theorem C3_largest_delay_backend_independent_witness :
    largestDelayCompute [[⟨false, (10 : ℤ)⟩, ⟨true, 99⟩], [⟨false, 3⟩]] [1, 0] =
      some (largestDelaySeq [[⟨false, (10 : ℤ)⟩, ⟨true, 99⟩], [⟨false, 3⟩]]) ∧
    largestDelayCompute [[⟨false, (10 : ℤ)⟩, ⟨true, 99⟩], [⟨false, 3⟩]] [0, 1, 0] =
      some (largestDelaySeq [[⟨false, (10 : ℤ)⟩, ⟨true, 99⟩], [⟨false, 3⟩]]) ∧
    largestDelayCompute [[⟨false, (10 : ℤ)⟩, ⟨true, 99⟩], [⟨false, 3⟩]] [0, 1] =
      some (largestDelaySeq [[⟨false, (10 : ℤ)⟩, ⟨true, 99⟩], [⟨false, 3⟩]]) ∧
    largestDelayCompute [[⟨false, (10 : ℤ)⟩, ⟨true, 99⟩], [⟨false, 3⟩]] [1, 1, 0] =
      some (largestDelaySeq [[⟨false, (10 : ℤ)⟩, ⟨true, 99⟩], [⟨false, 3⟩]]) :=
  C3_largest_delay_backend_independent ℤ inferInstance
    [[⟨false, (10 : ℤ)⟩, ⟨true, 99⟩], [⟨false, 3⟩]] [1, 0] [0, 1, 0] [0, 1] [1, 1, 0]
    (by unfold completeOrder; decide) (by unfold completeOrder; decide)
    (by unfold completeOrder; decide) (by unfold completeOrder; decide)

/-! ### The notebooks as data

`src/07-machine-learning.ipynb` holds two notebook documents.  Each cell
is a markdown cell or a code cell; each code cell is a short sequence of
Python statements.  The statements are embedded below as an AST that
keeps what the structural claims need: which names are imported, which
functions and classes are defined, which library calls are made (callee
and argument source text, with dict-literal keyword arguments elided),
`with`-blocks, and the `try`/`except` construct of the language (which no
cell of these notebooks uses).  String arguments are recorded without
their Python quotes. -/

/-- nbformat cell types. -/
inductive CellType where
  | markdown
  | code
  | raw
deriving DecidableEq, Repr

/-- Python statements as the notebooks use them. -/
inductive Stmt where
  /-- `import m` / `from p import m`, recorded as the dotted name. -/
  | importStmt (modName : String)
  /-- `def name(...): ...` — a function definition. -/
  | defFun (name : String)
  /-- `class name: ...` — a class definition (present in the language,
  used by no cell of these notebooks). -/
  | classDef (name : String)
  /-- `target = <literal>` — assignment of a dict/list literal. -/
  | assignLit (target : String)
  /-- `target = fn(args)` — assignment of a call result. -/
  | assignCall (target : String) (fn : String) (args : List String)
  /-- `fn(args)` as an expression statement (also under `%time`/`%prun`). -/
  | exprCall (fn : String) (args : List String)
  /-- a bare expression statement such as `client` or `y[:8]`. -/
  | exprRef (e : String)
  /-- `with ctx₁(...), ctx₂(...): body`. -/
  | withBlock (ctxs : List (String × List String)) (body : Stmt)
  /-- `try: body except: handler` (unused by these notebooks). -/
  | tryExcept (body : Stmt) (handler : Stmt)
  /-- two statements in sequence (used inside block bodies). -/
  | seq (a b : Stmt)
  /-- a comment line. -/
  | comment (text : String)
  /-- the `%load path` magic. -/
  | magicLoad (path : String)
deriving DecidableEq, Repr

/-- One notebook cell. Markdown and raw cells carry no statements. -/
structure Cell where
  ty : CellType
  stmts : List Stmt
deriving DecidableEq, Repr

/-- A markdown cell. -/
def md : Cell := ⟨CellType.markdown, []⟩

/-- A code cell. -/
def code (stmts : List Stmt) : Cell := ⟨CellType.code, stmts⟩

/-! #### Semantics of a cell against a library oracle

The library calls are black boxes: an oracle maps each callee name to
`.ok ()` or to the exception it raises.  Executing a statement sequence
runs the calls in program order; an uncaught exception aborts the rest of
the cell and surfaces unchanged.  Only `try`/`except` can catch. -/

/-- Run a list of callee names in order against the oracle, stopping at
the first exception. -/
def runCallNames (lib : String → Except ε Unit) : List String → Except ε Unit
  | [] => .ok ()
  | n :: rest =>
    match lib n with
    | .error e => .error e
    | .ok () => runCallNames lib rest

/-- Execute one statement against the library oracle. -/
def execStmt (lib : String → Except ε Unit) : Stmt → Except ε Unit
  | .importStmt _ => .ok ()
  | .defFun _ => .ok ()
  | .classDef _ => .ok ()
  | .assignLit _ => .ok ()
  | .assignCall _ fn _ => lib fn
  | .exprCall fn _ => lib fn
  | .exprRef _ => .ok ()
  | .withBlock ctxs body =>
    match runCallNames lib (ctxs.map Prod.fst) with
    | .error e => .error e
    | .ok () => execStmt lib body
  | .tryExcept body handler =>
    match execStmt lib body with
    | .error _ => execStmt lib handler
    | .ok () => .ok ()
  | .seq a b =>
    match execStmt lib a with
    | .error e => .error e
    | .ok () => execStmt lib b
  | .comment _ => .ok ()
  | .magicLoad _ => .ok ()

/-- Execute a cell's statements in order. -/
def execStmts (lib : String → Except ε Unit) : List Stmt → Except ε Unit
  | [] => .ok ()
  | s :: rest =>
    match execStmt lib s with
    | .error e => .error e
    | .ok () => execStmts lib rest

/-- The callee names of a statement, in execution order. -/
def stmtCalls : Stmt → List String
  | .assignCall _ fn _ => [fn]
  | .exprCall fn _ => [fn]
  | .withBlock ctxs body => ctxs.map Prod.fst ++ stmtCalls body
  | .tryExcept body handler => stmtCalls body ++ stmtCalls handler
  | .seq a b => stmtCalls a ++ stmtCalls b
  | _ => []

/-- The callee names of a statement list, in execution order. -/
def stmtsCalls : List Stmt → List String
  | [] => []
  | s :: rest => stmtCalls s ++ stmtsCalls rest

/-- A statement installs no exception handler. -/
def handlerFree : Stmt → Bool
  | .tryExcept _ _ => false
  | .withBlock _ body => handlerFree body
  | .seq a b => handlerFree a && handlerFree b
  | _ => true

/-- The first exception the oracle raises along a call list, if any. -/
def firstError (lib : String → Except ε Unit) : List String → Option ε
  | [] => none
  | n :: rest =>
    match lib n with
    | .error e => some e
    | .ok () => firstError lib rest

lemma runCallNames_append (lib : String → Except ε Unit) (a b : List String) :
    runCallNames lib (a ++ b) =
      match runCallNames lib a with
      | .error e => .error e
      | .ok () => runCallNames lib b := by
  induction a with
  | nil => simp [runCallNames]
  | cons n rest ih =>
    rw [List.cons_append, runCallNames, runCallNames]
    cases lib n with
    | error e => rfl
    | ok u => cases u; rw [ih]

/-- A handler-free statement behaves exactly as the straight-line run of
its calls. -/
lemma execStmt_eq_runCalls (lib : String → Except ε Unit) :
    ∀ s : Stmt, handlerFree s = true → execStmt lib s = runCallNames lib (stmtCalls s) := by
  intro s
  induction s with
  | importStmt m => intro _; rfl
  | defFun n => intro _; rfl
  | classDef n => intro _; rfl
  | assignLit t => intro _; rfl
  | assignCall t fn args =>
    intro _
    simp only [execStmt, stmtCalls, runCallNames]
    cases lib fn with
    | error e => rfl
    | ok u => cases u; rfl
  | exprCall fn args =>
    intro _
    simp only [execStmt, stmtCalls, runCallNames]
    cases lib fn with
    | error e => rfl
    | ok u => cases u; rfl
  | exprRef e => intro _; rfl
  | withBlock ctxs body ih =>
    intro hf
    simp only [handlerFree] at hf
    simp only [execStmt, stmtCalls, runCallNames_append, ih hf]
  | tryExcept body handler ih1 ih2 =>
    intro hf
    simp [handlerFree] at hf
  | seq a b iha ihb =>
    intro hf
    simp only [handlerFree, Bool.and_eq_true] at hf
    simp only [execStmt, stmtCalls, runCallNames_append, iha hf.1, ihb hf.2]
  | comment t => intro _; rfl
  | magicLoad p => intro _; rfl

/-- A handler-free statement list behaves exactly as the straight-line run
of its calls. -/
lemma execStmts_eq_runCalls (lib : String → Except ε Unit) :
    ∀ l : List Stmt, l.all handlerFree = true →
      execStmts lib l = runCallNames lib (stmtsCalls l) := by
  intro l
  induction l with
  | nil => intro _; rfl
  | cons s rest ih =>
    intro hf
    simp only [List.all_cons, Bool.and_eq_true] at hf
    simp only [execStmts, stmtsCalls, runCallNames_append,
      execStmt_eq_runCalls lib s hf.1, ih hf.2]

/-- When some call raises, the straight-line run surfaces the first raised
exception unchanged. -/
lemma runCallNames_of_firstError (lib : String → Except ε Unit) :
    ∀ (ns : List String) (e : ε), firstError lib ns = some e →
      runCallNames lib ns = .error e := by
  intro ns
  induction ns with
  | nil => intro e h; simp [firstError] at h
  | cons n rest ih =>
    intro e h
    rw [firstError] at h
    rw [runCallNames]
    cases hn : lib n with
    | error e2 => rw [hn] at h; simp at h; rw [h]
    | ok u => cases u; rw [hn] at h; simp at h; exact ih e h

/-! #### The first notebook document (scikit-learn / dask-ml)

The 33 cells of the first document of `src/07-machine-learning.ipynb`, in
order.  Python string arguments are recorded without their quotes, and
dict-literal assignments (`param_grid = {...}`) as `assignLit`. -/

def notebook0 : List Cell :=
  [ md,  -- 0: title
    md,  -- 1: types of scaling
    md,  -- 2: which library to use
    md,  -- 3: scikit-learn in 5 minutes
    md,  -- 4: generate random data
    code [Stmt.importStmt "sklearn.datasets.make_classification",
          Stmt.assignCall "X, y" "make_classification"
            ["n_samples=10000", "n_features=4", "random_state=0"],
          Stmt.exprRef "X[:8]"],  -- 5
    code [Stmt.exprRef "y[:8]"],  -- 6
    md,  -- 7: fit a LogisticRegression
    code [Stmt.importStmt "sklearn.svm.SVC"],  -- 8
    md,  -- 9: create the estimator and fit it
    code [Stmt.assignCall "estimator" "SVC" ["random_state=0"],
          Stmt.exprCall "estimator.fit" ["X", "y"]],  -- 10
    md,  -- 11: inspect the learned attributes
    code [Stmt.exprRef "estimator.support_vectors_[:4]"],  -- 12
    md,  -- 13: check the accuracy
    code [Stmt.exprCall "estimator.score" ["X", "y"]],  -- 14
    md,  -- 15: hyperparameters
    md,  -- 16: hyperparameters affect the fit
    code [Stmt.assignCall "estimator" "SVC"
            ["C=0.00001", "shrinking=False", "random_state=0"],
          Stmt.exprCall "estimator.fit" ["X", "y"],
          Stmt.exprRef "estimator.support_vectors_[:4]"],  -- 17
    code [Stmt.exprCall "estimator.score" ["X", "y"]],  -- 18
    md,  -- 19: hyperparameter optimization
    code [Stmt.importStmt "sklearn.model_selection.GridSearchCV"],  -- 20
    code [Stmt.assignCall "estimator" "SVC"
            ["gamma=auto", "random_state=0", "probability=True"],
          Stmt.assignLit "param_grid",
          Stmt.assignCall "grid_search" "GridSearchCV"
            ["estimator", "param_grid", "verbose=2", "cv=2"],
          Stmt.exprCall "grid_search.fit" ["X", "y"]],  -- 21
    md,  -- 22: single-machine parallelism with scikit-learn
    code [Stmt.assignCall "grid_search" "GridSearchCV"
            ["estimator", "param_grid", "verbose=2", "cv=2", "n_jobs=-1"],
          Stmt.exprCall "grid_search.fit" ["X", "y"]],  -- 23
    md,  -- 24: multi-machine parallelism with dask
    code [Stmt.importStmt "pycon_utils.make_cluster",
          Stmt.importStmt "dask_ml.joblib",
          Stmt.importStmt "dask.distributed.Client",
          Stmt.importStmt "sklearn.externals.joblib"],  -- 25
    code [Stmt.assignCall "cluster" "make_cluster" [],
          Stmt.assignCall "client" "Client" ["cluster"]],  -- 26
    code [Stmt.exprRef "client"],  -- 27
    code [Stmt.assignCall "client" "Client" [],
          Stmt.exprRef "client"],  -- 28
    code [Stmt.withBlock [("joblib.parallel_backend", ["dask", "scatter=[X, y]"])]
            (Stmt.exprCall "grid_search.fit" ["X", "y"])],  -- 29
    code [Stmt.exprRef "client.cluster.__class__"],  -- 30
    md,  -- 31: overhead discussion, larger problem
    code [Stmt.assignLit "param_grid",
          Stmt.assignCall "grid_search" "GridSearchCV"
            ["estimator", "param_grid", "verbose=2", "cv=5", "n_jobs=-1"],
          Stmt.withBlock [("joblib.parallel_backend", ["dask", "scatter=[X, y]"])]
            (Stmt.exprCall "grid_search.fit" ["X", "y"])]  -- 32
  ]

/-! #### The second notebook document (schedulers)

The 50 cells of the second document of `src/07-machine-learning.ipynb`. -/

def notebook1 : List Cell :=
  [ md,  -- 0: dask logo header
    code [Stmt.importStmt "concurrent.futures",
          Stmt.defFun "fib"],  -- 1
    code [Stmt.exprCall "fib" ["34"]],  -- 2
    md,  -- 3: one fib(34) takes about 2 seconds
    code [Stmt.assignCall "results" "map" ["fib", "[34, 34, 34, 34]"],
          Stmt.assignCall "_" "list" ["results"]],  -- 4
    md,  -- 5: compute it in parallel
    code [Stmt.assignCall "thread_pool" "concurrent.futures.ThreadPoolExecutor"
            ["max_workers=4"],
          Stmt.assignCall "results" "thread_pool.map" ["fib", "[34, 34, 34, 34]"],
          Stmt.assignCall "_" "list" ["results"]],  -- 6
    md,  -- 7: it is actually slower
    md,  -- 8: exercise: parallelize fib with a ProcessPoolExecutor
    code [Stmt.comment "Your solution"],  -- 9
    code [Stmt.magicLoad "solutions/04-schedulers-fib-process.py"],  -- 10
    md,  -- 11: why use threads at all
    md,  -- 12: schedulers
    md,  -- 13: dask includes several schedulers
    md,  -- 14: local schedulers
    code [Stmt.importStmt "dask",
          Stmt.importStmt "dask.multiprocessing",
          Stmt.importStmt "dask.dataframe",
          Stmt.importStmt "pandas",
          Stmt.importStmt "glob.glob",
          Stmt.importStmt "os"],  -- 15
    code [Stmt.assignCall "df" "dd.read_csv"
            ["os.path.join(data, nycflights, *.csv)", "parse_dates=...", "dtype=..."],
          Stmt.comment "Maximum non-cancelled delay",
          Stmt.assignCall "largest_delay" "df[~df.Cancelled].DepDelay.max" []],  -- 16
    code [Stmt.assignCall "_" "largest_delay.compute" [],
          Stmt.comment "this uses threads by default"],  -- 17
    code [Stmt.assignCall "_" "largest_delay.compute" ["get=dask.multiprocessing.get"],
          Stmt.comment "this uses processes"],  -- 18
    code [Stmt.assignCall "_" "largest_delay.compute" ["get=dask.get"],
          Stmt.comment "This uses a single thread"],  -- 19
    md,  -- 20: same number of workers as cores
    code [Stmt.importStmt "multiprocessing.cpu_count",
          Stmt.exprCall "cpu_count" []],  -- 21
    md,  -- 22: some questions to consider
    md,  -- 23: separator
    md,  -- 24: when to use one scheduler over another
    md,  -- 25: separator
    md,  -- 26: profiling
    code [Stmt.assignCall "_" "largest_delay.compute" ["get=dask.threaded.get"]],  -- 27
    code [Stmt.assignCall "_" "largest_delay.compute" ["get=dask.get"]],  -- 28
    md,  -- 29: dask diagnostics
    code [Stmt.importStmt "dask.diagnostics.Profiler",
          Stmt.importStmt "dask.diagnostics.ResourceProfiler",
          Stmt.importStmt "dask.diagnostics.visualize",
          Stmt.withBlock [("Profiler", []), ("ResourceProfiler", ["0.25"])]
            (Stmt.exprCall "largest_delay.compute" []),
          Stmt.exprCall "visualize" ["[r, p]"]],  -- 30
    md,  -- 31: GIL effects
    md,  -- 32: separator
    md,  -- 33: distributed scheduler
    md,  -- 34: using a local cluster
    code [Stmt.importStmt "dask.distributed.Client",
          Stmt.comment "Setup a local cluster.",
          Stmt.comment "By default this sets up 1 worker per core",
          Stmt.assignCall "client" "Client" [],
          Stmt.exprRef "client"],  -- 35
    md,  -- 36: dashboard link
    code [Stmt.assignCall "_" "largest_delay.compute" ["get=client.get"]],  -- 37
    md,  -- 38: some questions to consider
    md,  -- 39: client takes over by default
    code [Stmt.assignCall "_" "largest_delay.compute" [],
          Stmt.comment "This used to use threads by default, now it uses dask.distributed"],  -- 40
    md,  -- 41: separator
    md,  -- 42: exercise: run computations on the diagnostics page
    code [Stmt.comment "Number of flights",
          Stmt.assignCall "_" "len" ["df"]],  -- 43
    code [Stmt.comment "Number of non-cancelled flights",
          Stmt.assignCall "_" "len" ["df[~df.Cancelled]"]],  -- 44
    code [Stmt.comment "Number of non-cancelled flights per-airport",
          Stmt.assignCall "_" "df[~df.Cancelled].groupby(Origin).Origin.count().compute" []],  -- 45
    code [Stmt.comment "Average departure delay from each airport?",
          Stmt.assignCall "_" "df[~df.Cancelled].groupby(Origin).DepDelay.mean().compute" []],  -- 46
    code [Stmt.comment "Average departure delay per day-of-week",
          Stmt.assignCall "_" "df.groupby(df.Date.dt.dayofweek).DepDelay.mean().compute" []],  -- 47
    md,  -- 48: separator
    md   -- 49: new API of the distributed scheduler
  ]

/-- The notebook documents of the repository source. -/
def notebooks : List (List Cell) := [notebook0, notebook1]

/-- All cells of the source, in order. -/
def allCells : List Cell := notebook0 ++ notebook1

/-- All statements of all code cells of the source, in order. -/
def allStmts : List Stmt := (allCells.map Cell.stmts).flatten

/-- The definition statements (functions and classes) of a statement,
including those nested in blocks. -/
def stmtDefs : Stmt → List Stmt
  | Stmt.withBlock _ body => stmtDefs body
  | Stmt.tryExcept body handler => stmtDefs body ++ stmtDefs handler
  | Stmt.seq a b => stmtDefs a ++ stmtDefs b
  | Stmt.defFun n => [Stmt.defFun n]
  | Stmt.classDef n => [Stmt.classDef n]
  | _ => []

/-- Every function or class definition the source makes. -/
def allDefs : List Stmt := (allStmts.map stmtDefs).flatten

/-- Whether a statement is a class definition. -/
def isClassDef : Stmt → Bool
  | Stmt.classDef _ => true
  | _ => false

/-! ### C5: no handler, errors propagate unchanged -/

/-- C5: the notebooks install no exception handler, so whenever the
library oracle raises on some call of a cell, the first raised exception
surfaces from the cell unchanged, and the statements after the failing
call never run (execution aborts with exactly that error). -/
theorem C5_library_errors_propagate_unchanged :
    ∀ (ε : Type) (lib : String → Except ε Unit), ∀ c ∈ allCells, ∀ e : ε,
      firstError lib (stmtsCalls c.stmts) = some e →
      execStmts lib c.stmts = .error e := by
  intro ε lib c hc e he
  have hall : allCells.all (fun c => c.stmts.all handlerFree) = true := by decide
  have hfree : c.stmts.all handlerFree = true := List.all_eq_true.mp hall c hc
  rw [execStmts_eq_runCalls lib c.stmts hfree]
  exact runCallNames_of_firstError lib _ e he

/-- An oracle under which `grid_search.fit` raises and every other library
call succeeds. -/
def exampleLib : String → Except String Unit :=
  fun n => if n = "grid_search.fit" then .error "fit failed" else .ok ()

/-- The grid-search cell (cell 21 of the first notebook document). -/
def gridSearchCell : Cell :=
  code [Stmt.assignCall "estimator" "SVC"
          ["gamma=auto", "random_state=0", "probability=True"],
        Stmt.assignLit "param_grid",
        Stmt.assignCall "grid_search" "GridSearchCV"
          ["estimator", "param_grid", "verbose=2", "cv=2"],
        Stmt.exprCall "grid_search.fit" ["X", "y"]]

/-- Witness for C5: when `grid_search.fit` raises, the grid-search cell
surfaces exactly that exception. -/
theorem C5_library_errors_propagate_unchanged_witness :
    execStmts exampleLib gridSearchCell.stmts = .error "fit failed" :=
  C5_library_errors_propagate_unchanged String exampleLib gridSearchCell
    (by decide) "fit failed" (by decide)

/-! ### C6: the four demonstrated activities -/

/-- C6: the notebook code performs all four demonstrated activities: it
fits an SVC and runs a GridSearchCV hyperparameter search; it exercises
single-machine parallelism with a ThreadPoolExecutor mapping fib over
inputs plus the ProcessPoolExecutor exercise (whose solution the `%load`
magic pulls in); it swaps the task-graph execution backend between the
default threaded scheduler, multiprocessing, single-threaded, threaded and
distributed `get`s; and it profiles parallel execution with Profiler,
ResourceProfiler and visualize. -/
theorem C6_four_demonstrated_activities :
    (Stmt.assignCall "estimator" "SVC" ["random_state=0"] ∈ allStmts ∧
     Stmt.exprCall "estimator.fit" ["X", "y"] ∈ allStmts ∧
     Stmt.assignCall "grid_search" "GridSearchCV"
       ["estimator", "param_grid", "verbose=2", "cv=2"] ∈ allStmts ∧
     Stmt.exprCall "grid_search.fit" ["X", "y"] ∈ allStmts) ∧
    (Stmt.assignCall "thread_pool" "concurrent.futures.ThreadPoolExecutor"
       ["max_workers=4"] ∈ allStmts ∧
     Stmt.assignCall "results" "thread_pool.map" ["fib", "[34, 34, 34, 34]"] ∈ allStmts ∧
     Stmt.magicLoad "solutions/04-schedulers-fib-process.py" ∈ allStmts) ∧
    (Stmt.assignCall "_" "largest_delay.compute" [] ∈ allStmts ∧
     Stmt.assignCall "_" "largest_delay.compute" ["get=dask.multiprocessing.get"] ∈ allStmts ∧
     Stmt.assignCall "_" "largest_delay.compute" ["get=dask.get"] ∈ allStmts ∧
     Stmt.assignCall "_" "largest_delay.compute" ["get=dask.threaded.get"] ∈ allStmts ∧
     Stmt.assignCall "_" "largest_delay.compute" ["get=client.get"] ∈ allStmts) ∧
    (Stmt.withBlock [("Profiler", []), ("ResourceProfiler", ["0.25"])]
       (Stmt.exprCall "largest_delay.compute" []) ∈ allStmts ∧
     Stmt.exprCall "visualize" ["[r, p]"] ∈ allStmts) := by
  decide

/-! ### C7: cell-sequence pattern -/

/-- The cell-type sequence of a notebook document. -/
def cellTypes (cells : List Cell) : List CellType := cells.map Cell.ty

/-- Scan a cell-type sequence (with the type of the previous cell, if
any): true when every code cell is immediately preceded by a markdown
cell. -/
def checkCodeAfterMarkdown : Option CellType → List CellType → Bool
  | _, [] => true
  | prev, t :: rest =>
    ((t != CellType.code) || (prev == some CellType.markdown)) &&
      checkCodeAfterMarkdown (some t) rest

/-- Every code cell of the document is immediately preceded by a markdown
cell. -/
def everyCodeCellPrecededByMarkdown (cells : List Cell) : Bool :=
  checkCodeAfterMarkdown none (cellTypes cells)

/-- Scan with previous type: true when every code cell either opens a run
right after a markdown cell or continues a run of code cells. -/
def checkCodeRunIntro : Option CellType → List CellType → Bool
  | _, [] => true
  | prev, t :: rest =>
    ((t != CellType.code) || (prev == some CellType.markdown) ||
        (prev == some CellType.code)) &&
      checkCodeRunIntro (some t) rest

/-- Every maximal run of consecutive code cells is immediately preceded by
a markdown cell (in particular the document starts with markdown). -/
def codeRunsIntroducedByMarkdown (cells : List Cell) : Bool :=
  checkCodeRunIntro none (cellTypes cells)

/-- C7 counterexample: in the first notebook document, cells 5 and 6 are
both code cells, so the code cell at index 6 is immediately preceded by a
code cell, not a markdown cell, and the claimed pattern fails. -/
theorem C7_counterexample :
    everyCodeCellPrecededByMarkdown notebook0 = false ∧
    (cellTypes notebook0)[5]? = some CellType.code ∧
    (cellTypes notebook0)[6]? = some CellType.code := by
  decide

/-- C7 amended: in every notebook, code cells come in runs introduced by a
markdown explanation cell: every code cell is either immediately preceded
by a markdown cell or continues a consecutive run of code cells, and each
document opens with markdown. -/
theorem C7_amended_code_runs_introduced_by_markdown :
    notebooks.all codeRunsIntroducedByMarkdown = true := by
  decide

/-! ### C8: no repository-owned classes or data structures -/

/-- C8: the source defines no class or data structure of its own: scanning
every statement of every cell (blocks included), the only definition the
notebooks make is the function fib, and none is a class definition; every
other entity is bound by assigning the result of a call into an imported
library or a literal. -/
theorem C8_no_repository_owned_data_structures :
    (allDefs.all fun s => !(isClassDef s)) = true ∧
    allDefs = [Stmt.defFun "fib"] := by
  decide

/-! ### C1: the one function of the source has a specifiable property -/

/-- C1 counterexample: the source does define a function of its own, fib
(notebook part 1, cell 1), and fib has an independently specifiable
input-output property that is no third-party library behaviour: it
computes the Fibonacci numbers, e.g. fib 10 = 55 = Nat.fib 10. -/
theorem C1_counterexample :
    Stmt.defFun "fib" ∈ allStmts ∧ fib 10 = 55 ∧ (Nat.fib 10 : ℤ) = 55 := by
  refine ⟨by decide, ?_, by decide⟩
  have h : fibFuel 11 10 = some (fib 10) := fibFuel_complete 11 10 (by decide)
  have h2 : fibFuel 11 10 = some 55 := by decide
  exact Option.some.inj (h.symm.trans h2)

/-- C1 amended: the repository implements no scheduler, protocol, cache,
class or data structure of its own, and the only function it defines is
the pedagogical fib, whose input-output behaviour is independently
specifiable (it is the Fibonacci function); every other computation is a
call into an external library. -/
theorem C1_amended_only_fib_is_specifiable :
    allDefs = [Stmt.defFun "fib"] ∧
    (allDefs.all fun s => !(isClassDef s)) = true ∧
    (∀ n : ℕ, fib (n : ℤ) = (Nat.fib n : ℤ)) :=
  ⟨by decide, by decide, fib_eq_natFib⟩

end DaskTutorial
